import Mathlib

/-
Shallow embedding of `src/tg_parser.py` (telegram job-parser service).

The program polls a set of telegram sources, filters new messages through a
keyword filter and an optional GPT classifier, and posts matching items to a
miniapp sink.  External effects (the telegram provider, the miniapp HTTP API,
the GPT endpoint, sleeps) are modelled as explicit environment data passed to
pure functions; provider calls, sink posts and sleeps are additionally recorded
in an event trace so that temporal properties (flood-wait compliance) can be
stated.  Machine integers of the source are modelled as `Nat` (message ids and
HTTP status codes are non-negative and never overflow in the source).
-/

namespace TgParser

/-! ### Python string primitives used by the source -/

/-- Characters stripped by Python `str.strip()` (ASCII whitespace subset). -/
def isPySpace (c : Char) : Bool :=
  c = ' ' || c = '\t' || c = '\n' || c = '\r' || c = '\x0b' || c = '\x0c'

/-- Model of Python `str.strip()`. -/
def pyStrip (s : String) : String :=
  String.mk (((s.data.dropWhile isPySpace).reverse.dropWhile isPySpace).reverse)

/-- Model of Python `str.lower()` (ASCII case mapping). -/
def pyLower (s : String) : String :=
  String.mk (s.data.map Char.toLower)

/-- Python `a in b` substring test, on character lists. -/
def listContains (needle : List Char) : List Char → Bool
  | [] => needle.isEmpty
  | c :: cs => needle.isPrefixOf (c :: cs) || listContains needle cs

/-- Python `x or y` on an optional string, where `None` and `""` are falsy
(`title or first_name or source_raw`, `username or source`). -/
def pyOrS : Option String → String → String
  | some s, b => if s = "" then b else s
  | none, b => b

/-! ### Keyword filter (`_keyword_match`, lines 349-353) -/

/-- `_keyword_match`: with an empty keyword list nothing matches (fail-closed);
otherwise case-insensitive substring match of any keyword in the text.
The keyword list `JOB_KEYWORDS` is passed as the `kws` parameter. -/
def _keyword_match (kws : List String) (text : String) : Bool :=
  if kws.isEmpty then false
  else kws.any (fun k => listContains k.data (pyLower text).data)

/-! ### GPT classifier (`gpt_is_relevant`, lines 130-191) -/

/-- Outcome of the single HTTP POST to the GPT endpoint: either the request
raises (transport error / timeout), or it returns a status code together with
the result of extracting and JSON-parsing the verdict from the body
(`none` = the body could not be parsed as `{relevant, reason}`). -/
inductive GptHttp where
  | exn : GptHttp
  | resp (status : Nat) (parsed : Option (Bool × String)) : GptHttp
deriving DecidableEq, Repr

/-- `gpt_is_relevant`: returns `(relevant, reason)`.  Disabled GPT is treated
as relevant; an HTTP status `>= 400` is treated as relevant (fail-open); a
raised exception — including a JSON parse failure of the body — is treated as
relevant; otherwise the parsed verdict is honoured.  (The prompt construction
and the `GPT_TEXT_MAX` truncation only shape the outbound request text and do
not affect the returned value, so they are not modelled.) -/
def gpt_is_relevant (gptEnabled : Bool) (text : String) (http : GptHttp) :
    Bool × String :=
  if !gptEnabled then (true, "gpt_disabled")
  else
    match http with
    | GptHttp.exn => (true, "gpt_error")
    | GptHttp.resp status parsed =>
      if 400 ≤ status then (true, "gpt_http_" ++ toString status)
      else
        match parsed with
        | none => (true, "gpt_error")
        | some (rel, reason) =>
          let r := String.mk ((pyStrip reason).data.take 200)
          (rel, if r = "" then "ok" else r)

/-! ### Delivery client (`send_job_to_miniapp`, lines 321-343) -/

/-- Result of one call to `send_job_to_miniapp`: how many POSTs to `/post`
were made, whether the call returned normally (so the caller counts the item
as sent), whether an alert was sent and whether the call raised
(`raise_for_status`, which raises only for status `>= 400`). -/
structure SendOut where
  attempts : Nat
  delivered : Bool
  alerted : Bool
  raised : Bool
deriving DecidableEq, Repr

/-- `send_job_to_miniapp`: makes exactly one POST to `/post`.  A 200 response
returns silently; any other status logs and alerts, after which
`r.raise_for_status()` raises only when the status is `>= 400` — a non-200
status below 400 returns normally and the caller counts the item as sent.
`responses i` is the status the sink would return for attempt `i`; the
source only ever performs attempt `0`.  (The payload is assembled by the
caller; `external_id` is always non-empty there, so the `_hash_fallback`
branch of the payload is dead and not modelled.) -/
def send_job_to_miniapp (responses : Nat → Nat) : SendOut :=
  if responses 0 = 200 then ⟨1, true, false, false⟩
  else if responses 0 < 400 then ⟨1, true, true, false⟩
  else ⟨1, false, true, true⟩

/-! ### Source registry client (`fetch_telegram_sources`, lines 255-283, and
`_looks_like_telegram`, lines 240-252) -/

/-- One entry of the `/api/groups` registry response. -/
structure RegistryEntry where
  enabled : Bool
  type : String
  group_id : String
deriving DecidableEq, Repr

/-- Character class `[a-zA-Z0-9_]`. -/
def isWordChar (c : Char) : Bool := c.isAlphanum || c = '_'

/-- Python `re.fullmatch(r"[a-zA-Z0-9_]{4,}", s)`. -/
def isWordRun (l : List Char) : Bool :=
  decide (4 ≤ l.length) && l.all isWordChar

/-- Python `re.fullmatch(r"-?\d+", s)`. -/
def isSignedDigits : List Char → Bool
  | [] => false
  | '-' :: rest => !rest.isEmpty && rest.all Char.isDigit
  | l => l.all Char.isDigit

/-- `_looks_like_telegram`: recognizable telegram-source syntax
(handle, t.me URL, bare word of length `>= 4`, or numeric id). -/
def _looks_like_telegram (raw : String) : Bool :=
  let s := pyLower (pyStrip raw)
  if s = "" then false
  else if "@".data.isPrefixOf s.data then true
  else if listContains "t.me/".data s.data || listContains "telegram.me/".data s.data then true
  else if isWordRun s.data then true
  else if isSignedDigits s.data then true
  else false

/-- The list built by `fetch_telegram_sources` before deduplication:
enabled entries whose type tag is empty or "telegram" and whose trimmed
`group_id` is non-empty and looks like a telegram source, in registry order. -/
def filteredRaws (fetch : Option (List RegistryEntry)) : List String :=
  match fetch with
  | none => []
  | some groups =>
    groups.filterMap (fun g =>
      if !g.enabled then none
      else
        let t := pyStrip (pyLower g.type)
        if t ≠ "" && t ≠ "telegram" then none
        else
          let raw := pyStrip g.group_id
          if raw = "" then none
          else if !(_looks_like_telegram raw) then none
          else some raw)

/-- Python `list(dict.fromkeys(out))`: drop later duplicates, keep the first
occurrence of each string, preserving order. -/
def dedupAux (seen : List String) : List String → List String
  | [] => []
  | x :: xs => if x ∈ seen then dedupAux seen xs else x :: dedupAux (x :: seen) xs

/-- First-occurrence deduplication, as `list(dict.fromkeys(out))`. -/
def dedupFirst (l : List String) : List String := dedupAux [] l

/-- `fetch_telegram_sources`: `none` models an HTTP error or exception of the
registry fetch (the source then returns `[]`). -/
def fetch_telegram_sources (fetch : Option (List RegistryEntry)) : List String :=
  dedupFirst (filteredRaws fetch)

/-! ### Source normalization (`_normalize_tg_source`, lines 286-302) -/

/-- Character class `[a-zA-Z0-9_+\-]` of the URL-tail capture group. -/
def isTgNameChar (c : Char) : Bool :=
  c.isAlphanum || c = '_' || c = '+' || c = '-'

/-- `re.search(r"(?:t\.me|telegram\.me)/([a-zA-Z0-9_+\-]+)/?", s)`: find the
leftmost occurrence of `t.me/` or `telegram.me/` followed by a non-empty run
of tail characters, and return that run.  (At any one position at most one of
the two literal alternatives can match, since they differ at their second
character; on a failed match the regex engine moves one position right, as
does this model.) -/
def findHostTail : List Char → Option (List Char)
  | [] => none
  | c :: cs =>
    if "t.me/".data.isPrefixOf (c :: cs) then
      let tail := ((c :: cs).drop 5).takeWhile isTgNameChar
      if tail.isEmpty then findHostTail cs else some tail
    else if "telegram.me/".data.isPrefixOf (c :: cs) then
      let tail := ((c :: cs).drop 12).takeWhile isTgNameChar
      if tail.isEmpty then findHostTail cs else some tail
    else findHostTail cs

/-- `_normalize_tg_source`: extract `@handle` from t.me links (invite links
starting with `+` are kept as-is), prepend `@` to bare words, otherwise keep
the trimmed string. -/
def _normalize_tg_source (raw : String) : String :=
  let s := pyStrip raw
  if s = "" then ""
  else
    match findHostTail s.data with
    | some tail =>
      if tail.head? = some '+' then s
      else "@" ++ String.mk (tail.dropWhile (fun c => c = '@'))
    | none =>
      if isWordRun s.data && !("@".data.isPrefixOf s.data) then "@" ++ s else s

/-! ### Messages, entities and the per-source environment -/

/-- The resolved entity of a source (`client.get_entity`): `username`,
`title`, `first_name` attributes (absent = `none`; `""` is falsy in the
Python `or` chains and handled by `pyOrS`). -/
structure Entity where
  username : Option String
  title : Option String
  firstName : Option String
deriving DecidableEq, Repr

/-- An exception raised by a provider call: `FloodWaitError` with its
`seconds` attribute, or any other exception.  `get_entity`, the warm-start
probe, `msg.get_sender()` and `iter_messages` can each raise either kind;
only the `iter_messages` handler (and the cycle-level handler) sleep on a
flood wait — the other sites swallow it in generic `except` blocks. -/
inductive FetchErr where
  | floodWait (seconds : Nat) : FetchErr
  | other : FetchErr
deriving DecidableEq, Repr

/-- One message yielded by `client.iter_messages`, together with the outcome
of the external calls made while processing it: `gptHttp` is the GPT HTTP
outcome if the classifier is consulted for this message, `sinkStatus` the
status `/post` would return if the message is delivered, `senderErr` an
exception `msg.get_sender()` raises (swallowed by the `except: pass` at
lines 443-444, even for a flood wait). -/
structure Msg where
  id : Nat
  text : String
  createdAt : Option String
  senderErr : Option FetchErr
  senderUsername : Option String
  peerId : Option Nat
  gptHttp : GptHttp
  sinkStatus : Nat
deriving DecidableEq, Repr

/-- Provider-side behaviour for one `_parse_one_source` pass:
`resolved` is the `get_entity` result (`Except.error` = it raised; a
`FloodWaitError` there is swallowed by the generic handler at line 373);
`warmProbe` is the `get_messages(entity, limit=1)` result used by warm start
(`Except.error` = it raised — also swallowed, line 392 —, `Except.ok none` =
empty history, `Except.ok (some lid)` = the latest message has id `lid`);
`fetched` are the messages `iter_messages(min_id=.., limit=..)` yields in
ascending order (already bounded by `TG_NEW_MESSAGES_LIMIT`);
`fetchErr` is an error the iterator raises after yielding `fetched`. -/
structure SourceEnv where
  resolved : Except FetchErr Entity
  warmProbe : Except FetchErr (Option Nat)
  fetched : List Msg
  fetchErr : Option FetchErr

/-- Observable events of a run: provider calls, sink/alert/status posts,
flood-wait signals as they are caught, and sleeps (in seconds). -/
inductive Ev where
  | resolveCall : Ev
  | probeCall : Ev
  | fetchYield (id : Nat) : Ev
  | getSenderCall : Ev
  | authCall : Ev
  | sinkPost (extId : String) : Ev
  | alertPost : Ev
  | statusPost (s : String) : Ev
  | floodSignal (n : Nat) : Ev
  | sleep (n : Nat) : Ev
deriving DecidableEq, Repr

/-- `_external_id_from_message`: `f"{pid or 'unknown'}:{msg.id}"` where `pid`
is the channel/chat/user id of the message's peer (`0`/absent are falsy). -/
def _external_id_from_message (peerId : Option Nat) (msgId : Nat) : String :=
  (match peerId with
   | some p => if p = 0 then "unknown" else toString p
   | none => "unknown") ++ ":" ++ toString msgId

/-- The payload posted to `/post` for a delivered message. -/
structure Payload where
  external_id : String
  url : Option String
  text : String
  sender_username : Option String
  created_at : Option String
deriving DecidableEq, Repr

/-- `url = f"https://t.me/{username}/{msg.id}" if username else None`. -/
def msgUrl (username : Option String) (msgId : Nat) : Option String :=
  match username with
  | some u => if u = "" then none else some ("https://t.me/" ++ u ++ "/" ++ toString msgId)
  | none => none

/-- Sender-username resolution (lines 437-444): a `get_sender` exception
(of any kind) leaves it `None`; a truthy username is prefixed with `@` after
`lstrip("@")`. -/
def normSender (err : Option FetchErr) (u : Option String) : Option String :=
  match err with
  | some _ => none
  | none =>
    match u with
    | none => none
    | some s =>
      if s = "" then some ""
      else some ("@" ++ String.mk (s.data.dropWhile (fun c => c = '@')))

/-- The payload assembled for message `m` of a source whose entity has
username `u` (the delivered `text` is the stripped message body). -/
def payloadOf (u : Option String) (m : Msg) : Payload :=
  ⟨_external_id_from_message m.peerId m.id, msgUrl u m.id, pyStrip m.text,
   normSender m.senderErr m.senderUsername, m.createdAt⟩

/-- Trace events of the `msg.get_sender()` call: a swallowed `FloodWaitError`
leaves its signal in the trace with no sleep (lines 438-444 catch every
exception with `pass`). -/
def senderEvs : Option FetchErr → List Ev
  | some (FetchErr.floodWait k) => [Ev.getSenderCall, Ev.floodSignal k]
  | _ => [Ev.getSenderCall]

/-! ### The per-source loop (`_parse_one_source`, lines 359-466) -/

/-- Running state of the `async for` loop over fetched messages.
`kwSubmitted` / `gptSubmitted` record the texts submitted to the keyword
filter resp. the GPT filter; `aborted` is set when a delivery raises
(the exception escapes the loop into the generic handler at line 461). -/
structure LoopSt where
  newSeen : Nat
  kwMatched : Nat
  sent : Nat
  maxIdSeen : Nat
  delivered : List Payload
  kwSubmitted : List String
  gptSubmitted : List String
  trace : List Ev
  aborted : Bool
deriving Repr

/-- Initial loop state: `max_id_seen = min_id`, all counters zero. -/
def initSt (minId : Nat) : LoopSt :=
  ⟨0, 0, 0, minId, [], [], [], [], false⟩

/-- One iteration of the loop body (lines 404-455) on message `m`.
`max st.maxIdSeen m.id` models `if msg.id and int(msg.id) > max_id_seen`
(an id of `0` is falsy in Python and never exceeds `max_id_seen` anyway).
The delivery call mirrors `send_job_to_miniapp`: a 200 response returns
silently; a non-200 status below 400 alerts but returns normally, so the
loop still counts the item sent and continues; a status `>= 400` alerts and
raises (`raise_for_status`), which escapes the loop into the generic
handler at line 461 and aborts the rest of the pass. -/
def stepMsg (kws : List String) (gptEnabled : Bool) (username : Option String)
    (st : LoopSt) (m : Msg) : LoopSt :=
  if st.aborted then st
  else
    let st1 := { st with
      newSeen := st.newSeen + 1,
      maxIdSeen := max st.maxIdSeen m.id,
      trace := st.trace ++ [Ev.fetchYield m.id] }
    let text := pyStrip m.text
    if text = "" then st1
    else
      let st2 := { st1 with kwSubmitted := st1.kwSubmitted ++ [text] }
      if !(_keyword_match kws text) then st2
      else
        let st3 := { st2 with
          kwMatched := st2.kwMatched + 1,
          gptSubmitted := st2.gptSubmitted ++ [text] }
        if !(gpt_is_relevant gptEnabled text m.gptHttp).1 then st3
        else
          let p := payloadOf username m
          let st4 := { st3 with
            trace := st3.trace ++ senderEvs m.senderErr ++ [Ev.sinkPost p.external_id] }
          if m.sinkStatus = 200 then
            { st4 with sent := st4.sent + 1, delivered := st4.delivered ++ [p] }
          else if m.sinkStatus < 400 then
            { st4 with sent := st4.sent + 1, delivered := st4.delivered ++ [p],
                       trace := st4.trace ++ [Ev.alertPost] }
          else
            { st4 with trace := st4.trace ++ [Ev.alertPost], aborted := true }

/-- Result of one `_parse_one_source` pass: the returned counters
`(new_msgs_seen, matched_by_keywords, sent_after_gpt)`, the updated cursor
map `last_ids`, the delivered payloads in delivery order, the filter
submissions and the event trace. -/
structure PassOut where
  newSeen : Nat
  kwMatched : Nat
  sent : Nat
  cursors : String → Option Nat
  delivered : List Payload
  kwSubmitted : List String
  gptSubmitted : List String
  trace : List Ev

/-- Python dict assignment `last_ids[k] = v`. -/
def setCursor (m : String → Option Nat) (k : String) (v : Nat) :
    String → Option Nat :=
  fun k' => if k' = k then some v else m k'

/-- The stable cursor key (line 382):
`entity_key = source_name + "|" + (username or source)` with
`source_name = title or first_name or source_raw` and `source` the
normalized raw identifier. -/
def entity_key (e : Entity) (source_raw : String) : String :=
  pyOrS e.title (pyOrS e.firstName source_raw) ++ "|" ++
    pyOrS e.username (_normalize_tg_source source_raw)

/-- Lines 395-466: everything of `_parse_one_source` after the warm-start
block: read `min_id`, iterate the fetched messages, handle a trailing
`FloodWaitError` (sleep `seconds + 1`) or other fetch error, and finally
write `last_ids[entity_key] = max(max_id_seen, min_id)` on every path.
(`int(last_ids.get(key, 0) or 0)` is `getD 0` on `Nat` cursors.)
If a delivery aborted the loop, the iterator never reached its own error,
so `fetchErr` is only consulted on non-aborted passes. -/
def runRest (kws : List String) (gptEnabled : Bool) (env : SourceEnv)
    (username : Option String) (key : String)
    (last_ids : String → Option Nat) (trace0 : List Ev) : PassOut :=
  let min_id := (last_ids key).getD 0
  let st := env.fetched.foldl (stepMsg kws gptEnabled username) (initSt min_id)
  let tail : List Ev :=
    if st.aborted then []
    else
      match env.fetchErr with
      | some (FetchErr.floodWait n) => [Ev.floodSignal n, Ev.sleep (n + 1)]
      | _ => []
  ⟨st.newSeen, st.kwMatched, st.sent,
   setCursor last_ids key (max st.maxIdSeen min_id),
   st.delivered, st.kwSubmitted, st.gptSubmitted,
   trace0 ++ st.trace ++ tail⟩

/-- `_parse_one_source`: normalize the raw source, resolve it (unresolvable
sources are skipped — the broad `except` at line 373 also swallows a
`FloodWaitError` without sleeping, which the trace records as a bare
signal), apply warm start when the cursor key is absent (seed to the latest
id and deliver nothing; on a probe exception — flood wait included, again
with no sleep — seed `0` and continue; on an empty history continue
unseeded), then run the fetch loop and advance the cursor.  `warmStart`,
`kws` (`JOB_KEYWORDS`) and `gptEnabled` are the configuration knobs the
function reads. -/
def _parse_one_source (warmStart : Bool) (kws : List String)
    (gptEnabled : Bool) (env : SourceEnv) (source_raw : String)
    (last_ids : String → Option Nat) : PassOut :=
  let source := _normalize_tg_source source_raw
  if source = "" then ⟨0, 0, 0, last_ids, [], [], [], []⟩
  else
    match env.resolved with
    | Except.error (FetchErr.floodWait k) =>
      ⟨0, 0, 0, last_ids, [], [], [], [Ev.resolveCall, Ev.floodSignal k]⟩
    | Except.error FetchErr.other =>
      ⟨0, 0, 0, last_ids, [], [], [], [Ev.resolveCall]⟩
    | Except.ok e =>
      let key := entity_key e source_raw
      if (last_ids key).isNone && warmStart then
        match env.warmProbe with
        | Except.ok (some lid) =>
          ⟨0, 0, 0, setCursor last_ids key lid, [], [], [],
           [Ev.resolveCall, Ev.probeCall]⟩
        | Except.ok none =>
          runRest kws gptEnabled env e.username key last_ids
            [Ev.resolveCall, Ev.probeCall]
        | Except.error (FetchErr.floodWait k) =>
          runRest kws gptEnabled env e.username key
            (setCursor last_ids key 0)
            [Ev.resolveCall, Ev.probeCall, Ev.floodSignal k]
        | Except.error FetchErr.other =>
          runRest kws gptEnabled env e.username key
            (setCursor last_ids key 0) [Ev.resolveCall, Ev.probeCall]
      else
        runRest kws gptEnabled env e.username key last_ids [Ev.resolveCall]

/-! ### One cycle of `main` (lines 490-562) -/

/-- Environment of one iteration of the `while True` loop:
the resolved session string, the authorization check outcome
(`Except.error (some n)` = `FloodWaitError n` raised inside the `try` block,
`Except.error none` = any other exception, `Except.ok b` =
`is_user_authorized()` returned `b`), the registry response, the per-source
provider behaviour, and the jittered poll sleep chosen at the end. -/
structure CycleEnv where
  session : String
  auth : Except (Option Nat) Bool
  registry : Option (List RegistryEntry)
  srcEnv : String → SourceEnv
  pollSleep : Nat

/-- Aggregate state of the per-source loop inside one cycle. -/
structure AggSt where
  cursors : String → Option Nat
  tNew : Nat
  tKw : Nat
  tSent : Nat
  delivered : List Payload
  trace : List Ev

/-- Process one source within a cycle, threading the cursor map and
accumulating counters, deliveries and the trace. -/
def stepSource (warmStart : Bool) (kws : List String) (gptEnabled : Bool)
    (srcEnv : String → SourceEnv) (acc : AggSt) (s : String) : AggSt :=
  let out := _parse_one_source warmStart kws gptEnabled (srcEnv s) s acc.cursors
  ⟨out.cursors, acc.tNew + out.newSeen, acc.tKw + out.kwMatched,
   acc.tSent + out.sent, acc.delivered ++ out.delivered, acc.trace ++ out.trace⟩

/-- The per-source loop of one cycle over the fetched source list. -/
def runSources (warmStart : Bool) (kws : List String) (gptEnabled : Bool)
    (srcEnv : String → SourceEnv) (cursors0 : String → Option Nat)
    (sources : List String) : AggSt :=
  sources.foldl (stepSource warmStart kws gptEnabled srcEnv) ⟨cursors0, 0, 0, 0, [], []⟩

/-- Result of one cycle: the value posted to `/api/parser_status/tg_parser`,
the cursor map, deliveries, the trace, and the `(new, kw, sent)` totals. -/
structure CycleOut where
  status : String
  cursors : String → Option Nat
  delivered : List Payload
  trace : List Ev
  totals : Nat × Nat × Nat

/-- One iteration of the `while True` loop of `main`: empty session →
`no_session` and retry after 60s; a cycle-level `FloodWaitError n` →
`flood_wait` status and sleep `n + 1`; unauthorized session → retry after
120s; otherwise fetch sources and either report `no_sources`, or process all
sources — with empty `JOB_KEYWORDS` the cursors are still advanced but the
counters are not accumulated and the status reports `no_keywords`; otherwise
the `ok` status with the accumulated totals.  The final jittered poll sleep
is appended on the paths that do not `continue`. -/
def runCycle (warmStart : Bool) (kws : List String) (gptEnabled : Bool)
    (cursors0 : String → Option Nat) (env : CycleEnv) : CycleOut :=
  if pyStrip env.session = "" then
    ⟨"no_session", cursors0, [],
     [Ev.statusPost "no_session", Ev.alertPost, Ev.sleep 60], (0, 0, 0)⟩
  else
    match env.auth with
    | Except.error (some n) =>
      ⟨"flood_wait " ++ toString n ++ "s", cursors0, [],
       [Ev.authCall, Ev.floodSignal n,
        Ev.statusPost ("flood_wait " ++ toString n ++ "s"),
        Ev.sleep (n + 1), Ev.sleep env.pollSleep], (0, 0, 0)⟩
    | Except.error none =>
      ⟨"error", cursors0, [],
       [Ev.authCall, Ev.statusPost "error", Ev.alertPost,
        Ev.sleep env.pollSleep], (0, 0, 0)⟩
    | Except.ok false =>
      ⟨"not_authorized", cursors0, [],
       [Ev.authCall, Ev.statusPost "not_authorized", Ev.alertPost,
        Ev.sleep 120], (0, 0, 0)⟩
    | Except.ok true =>
      let sources := fetch_telegram_sources env.registry
      if sources.isEmpty then
        ⟨"no_sources", cursors0, [],
         [Ev.authCall, Ev.statusPost "no_sources", Ev.sleep env.pollSleep],
         (0, 0, 0)⟩
      else if kws.isEmpty then
        let agg := runSources warmStart kws gptEnabled env.srcEnv cursors0 sources
        let st := "no_keywords sources=" ++ toString sources.length
        ⟨st, agg.cursors, agg.delivered,
         [Ev.authCall] ++ agg.trace ++ [Ev.statusPost st, Ev.sleep env.pollSleep],
         (0, 0, 0)⟩
      else
        let agg := runSources warmStart kws gptEnabled env.srcEnv cursors0 sources
        let st := "ok new=" ++ toString agg.tNew ++ " kw=" ++ toString agg.tKw ++
          " sent=" ++ toString agg.tSent ++ " sources=" ++ toString sources.length
        ⟨st, agg.cursors, agg.delivered,
         [Ev.authCall] ++ agg.trace ++ [Ev.statusPost st, Ev.sleep env.pollSleep],
         (agg.tNew, agg.tKw, agg.tSent)⟩

/-! ### Derived spec-side notions used by the theorems -/

/-- Events that are calls to the telegram provider. -/
def isProviderCall : Ev → Bool
  | Ev.resolveCall => true
  | Ev.probeCall => true
  | Ev.fetchYield _ => true
  | Ev.getSenderCall => true
  | Ev.authCall => true
  | _ => false

/-- Is the event a flood-wait signal? -/
def isFloodSignal : Ev → Bool
  | Ev.floodSignal _ => true
  | _ => false

/-- `compliantFrom n evs`: with an outstanding mandatory cool-down of `n`
seconds, no provider call occurs in `evs` before sleeps totalling at least
`n` seconds have elapsed. -/
def compliantFrom : Nat → List Ev → Prop
  | _, [] => True
  | n, Ev.sleep s :: rest => compliantFrom (n - s) rest
  | n, e :: rest => (isProviderCall e = true → n = 0) ∧ compliantFrom n rest

/-- Decidable check that every flood signal in a trace is followed, before
any further provider call, by a sleep at least as long as the signalled
wait. -/
def afterSignalOk (n : Nat) : List Ev → Bool
  | [] => false
  | Ev.sleep m :: _ => decide (n ≤ m)
  | e :: rest => !(isProviderCall e) && afterSignalOk n rest

/-- Scan a whole trace for flood signals and check each with `afterSignalOk`. -/
def floodOk : List Ev → Bool
  | [] => true
  | Ev.floodSignal n :: rest => afterSignalOk n rest && floodOk rest
  | _ :: rest => floodOk rest

/-- A trace with no flood signal at all. -/
def signalFree (l : List Ev) : Bool := l.all (fun e => !(isFloodSignal e))

/-- The condition under which processing a message aborts the fetch loop:
the delivery is attempted (non-empty text, keyword match, GPT pass) and the
sink responds with a status `>= 400`, so `raise_for_status` raises out of
the loop (a non-200 status below 400 returns normally and the loop
continues). -/
def msgAborts (kws : List String) (gptEnabled : Bool) (m : Msg) : Bool :=
  let text := pyStrip m.text
  !(text == "") && _keyword_match kws text &&
    (gpt_is_relevant gptEnabled text m.gptHttp).1 && decide (400 ≤ m.sinkStatus)

/-- No swallowed flood wait at the `get_sender` call of this message. -/
def noSenderFlood (m : Msg) : Bool :=
  match m.senderErr with
  | some (FetchErr.floodWait _) => false
  | _ => true

/-- No flood wait arises at any of the three provider-call sites whose
generic exception handlers swallow it without sleeping: `get_entity`
(line 373), the warm-start probe (line 392) and `msg.get_sender()`
(lines 443-444). -/
def noSwallowedFlood (env : SourceEnv) : Bool :=
  (match env.resolved with
   | Except.error (FetchErr.floodWait _) => false
   | _ => true) &&
  (match env.warmProbe with
   | Except.error (FetchErr.floodWait _) => false
   | _ => true) &&
  env.fetched.all noSenderFlood

/-- The prefix of the fetched messages the loop actually processes: all of
them, or everything up to and including the first message whose delivery
raises. -/
def processedMsgs (kws : List String) (gptEnabled : Bool) : List Msg → List Msg
  | [] => []
  | m :: ms =>
    if msgAborts kws gptEnabled m then [m]
    else m :: processedMsgs kws gptEnabled ms

/-- The maximum message id observed in a list of messages (0 if none). -/
def observedMax (l : List Msg) : Nat :=
  l.foldl (fun a m => max a m.id) 0

/-! ### Basic lemmas about the loop body -/

theorem keyword_match_nil (t : String) : _keyword_match [] t = false := rfl

theorem stepMsg_of_aborted (kws : List String) (g : Bool) (u : Option String)
    (st : LoopSt) (m : Msg) (h : st.aborted = true) :
    stepMsg kws g u st m = st := by
  unfold stepMsg
  simp [h]

theorem foldl_stepMsg_of_aborted (kws : List String) (g : Bool)
    (u : Option String) (l : List Msg) (st : LoopSt) (h : st.aborted = true) :
    l.foldl (stepMsg kws g u) st = st := by
  induction l with
  | nil => rfl
  | cons m ms ih =>
    simp only [List.foldl_cons, stepMsg_of_aborted kws g u st m h]
    exact ih

theorem stepMsg_maxIdSeen (kws : List String) (g : Bool) (u : Option String)
    (st : LoopSt) (m : Msg) (h : st.aborted = false) :
    (stepMsg kws g u st m).maxIdSeen = max st.maxIdSeen m.id := by
  unfold stepMsg
  simp only [h, Bool.false_eq_true, if_false]
  repeat' split
  all_goals rfl

theorem stepMsg_aborted_eq (kws : List String) (g : Bool) (u : Option String)
    (st : LoopSt) (m : Msg) (h : st.aborted = false) :
    (stepMsg kws g u st m).aborted = msgAborts kws g m := by
  unfold stepMsg msgAborts
  simp only [h, Bool.false_eq_true, if_false, beq_iff_eq]
  by_cases ht : pyStrip m.text = ""
  · simp [h, ht]
  · by_cases hkw : _keyword_match kws (pyStrip m.text) = true
    · by_cases hg : (gpt_is_relevant g (pyStrip m.text) m.gptHttp).1 = true
      · by_cases hs2 : m.sinkStatus = 200
        · simp [hs2, h, ht, hkw, hg]
        · by_cases hs4 : m.sinkStatus < 400
          · have hnl : ¬ 400 ≤ m.sinkStatus := by omega
            simp [hs2, hs4, hnl, h, ht, hkw, hg]
          · have hl : 400 ≤ m.sinkStatus := by omega
            simp [hs2, hs4, hl, h, ht, hkw, hg]
      · simp [h, ht, hkw, Bool.eq_false_iff.mpr hg]
    · simp [h, ht, Bool.eq_false_iff.mpr hkw]

theorem stepMsg_delivered_cases (kws : List String) (g : Bool)
    (u : Option String) (st : LoopSt) (m : Msg) :
    (stepMsg kws g u st m).delivered = st.delivered ∨
      (stepMsg kws g u st m).delivered = st.delivered ++ [payloadOf u m] := by
  unfold stepMsg
  by_cases h : st.aborted = true
  · simp [h]
  · simp only [Bool.not_eq_true] at h
    simp only [h, Bool.false_eq_true, if_false]
    repeat' split
    all_goals first
      | exact Or.inl rfl
      | exact Or.inr rfl

theorem stepMsg_empty_text (kws : List String) (g : Bool) (u : Option String)
    (st : LoopSt) (m : Msg) (h : st.aborted = false)
    (ht : pyStrip m.text = "") :
    stepMsg kws g u st m =
      { st with newSeen := st.newSeen + 1,
                maxIdSeen := max st.maxIdSeen m.id,
                trace := st.trace ++ [Ev.fetchYield m.id] } := by
  unfold stepMsg
  simp [h, ht]

theorem stepMsg_nil_kws_delivered (g : Bool) (u : Option String)
    (st : LoopSt) (m : Msg) :
    (stepMsg [] g u st m).delivered = st.delivered ∧
      (stepMsg [] g u st m).sent = st.sent := by
  unfold stepMsg
  by_cases h : st.aborted = true
  · simp [h]
  · simp only [Bool.not_eq_true] at h
    simp only [h, Bool.false_eq_true, if_false]
    by_cases ht : pyStrip m.text = "" <;>
      simp [ht, keyword_match_nil]

theorem foldl_nil_kws_delivered (g : Bool) (u : Option String) (l : List Msg)
    (st : LoopSt) :
    (l.foldl (stepMsg [] g u) st).delivered = st.delivered ∧
      (l.foldl (stepMsg [] g u) st).sent = st.sent := by
  induction l generalizing st with
  | nil => exact ⟨rfl, rfl⟩
  | cons m ms ih =>
    simp only [List.foldl_cons]
    refine ⟨?_, ?_⟩
    · rw [(ih (stepMsg [] g u st m)).1, (stepMsg_nil_kws_delivered g u st m).1]
    · rw [(ih (stepMsg [] g u st m)).2, (stepMsg_nil_kws_delivered g u st m).2]

/-! ### Lemmas about `observedMax` and the maximum tracked by the loop -/

theorem foldl_max_eq (l : List Msg) (a : Nat) :
    l.foldl (fun a m => max a m.id) a = max a (observedMax l) := by
  induction l generalizing a with
  | nil => simp [observedMax]
  | cons m ms ih =>
    simp only [List.foldl_cons, observedMax]
    rw [ih (max a m.id), ih (max 0 m.id)]
    simp only [Nat.zero_max]
    rw [Nat.max_assoc]

theorem observedMax_cons (m : Msg) (l : List Msg) :
    observedMax (m :: l) = max m.id (observedMax l) := by
  have h := foldl_max_eq l (max 0 m.id)
  simpa [observedMax, Nat.zero_max] using h

theorem foldl_stepMsg_maxIdSeen (kws : List String) (g : Bool)
    (u : Option String) (l : List Msg) (st : LoopSt) (h : st.aborted = false) :
    (l.foldl (stepMsg kws g u) st).maxIdSeen =
      max st.maxIdSeen (observedMax (processedMsgs kws g l)) := by
  induction l generalizing st with
  | nil => simp [processedMsgs, observedMax]
  | cons m ms ih =>
    simp only [List.foldl_cons, processedMsgs]
    by_cases ha : msgAborts kws g m = true
    · have hab : (stepMsg kws g u st m).aborted = true := by
        rw [stepMsg_aborted_eq kws g u st m h, ha]
      rw [foldl_stepMsg_of_aborted kws g u ms _ hab,
        stepMsg_maxIdSeen kws g u st m h]
      simp [ha, observedMax_cons, observedMax]
    · simp only [Bool.not_eq_true] at ha
      have hab : (stepMsg kws g u st m).aborted = false := by
        rw [stepMsg_aborted_eq kws g u st m h, ha]
      rw [ih _ hab, stepMsg_maxIdSeen kws g u st m h]
      simp [ha, observedMax_cons, Nat.max_assoc]

theorem foldl_stepMsg_maxIdSeen_le (kws : List String) (g : Bool)
    (u : Option String) (l : List Msg) (st : LoopSt) :
    st.maxIdSeen ≤ (l.foldl (stepMsg kws g u) st).maxIdSeen := by
  by_cases h : st.aborted = true
  · rw [foldl_stepMsg_of_aborted kws g u l st h]
  · simp only [Bool.not_eq_true] at h
    rw [foldl_stepMsg_maxIdSeen kws g u l st h]
    exact Nat.le_max_left _ _

theorem foldl_stepMsg_delivered_sublist (kws : List String) (g : Bool)
    (u : Option String) (l : List Msg) (st : LoopSt) :
    ∃ d, (l.foldl (stepMsg kws g u) st).delivered = st.delivered ++ d ∧
      (d.map Payload.external_id).Sublist
        (l.map (fun m => _external_id_from_message m.peerId m.id)) := by
  induction l generalizing st with
  | nil => exact ⟨[], by simp, by simp⟩
  | cons m ms ih =>
    simp only [List.foldl_cons, List.map_cons]
    rcases ih (stepMsg kws g u st m) with ⟨d, hd, hs⟩
    rcases stepMsg_delivered_cases kws g u st m with hc | hc
    · exact ⟨d, by rw [hd, hc], hs.cons _⟩
    · refine ⟨payloadOf u m :: d, by rw [hd, hc]; simp, ?_⟩
      simp only [List.map_cons]
      exact List.Sublist.cons₂ _ hs

/-! ### Lemmas about registry deduplication -/

theorem dedupAux_sublist (l seen : List String) : (dedupAux seen l).Sublist l := by
  induction l generalizing seen with
  | nil => simp [dedupAux]
  | cons x xs ih =>
    simp only [dedupAux]
    split
    · exact (ih seen).cons x
    · exact (ih (x :: seen)).cons₂ x

theorem dedupAux_nodup (l seen : List String) :
    (dedupAux seen l).Nodup ∧ ∀ a ∈ dedupAux seen l, a ∉ seen := by
  induction l generalizing seen with
  | nil => simp [dedupAux]
  | cons x xs ih =>
    simp only [dedupAux]
    split
    · exact ih seen
    · rename_i hx
      obtain ⟨hnd, hmem⟩ := ih (x :: seen)
      refine ⟨List.nodup_cons.mpr ⟨fun hmem2 => ?_, hnd⟩, ?_⟩
      · exact (hmem x hmem2) (List.mem_cons_self x seen)
      · intro a ha
        rcases List.mem_cons.mp ha with rfl | ha2
        · exact hx
        · exact fun hs => (hmem a ha2) (List.mem_cons.mpr (Or.inr hs))

/-! ### Projection lemmas for `runRest` -/

theorem runRest_cursors (kws : List String) (g : Bool) (env : SourceEnv)
    (u : Option String) (key : String) (m : String → Option Nat)
    (tr0 : List Ev) (k : String) :
    (runRest kws g env u key m tr0).cursors k =
      if k = key
      then some (max ((env.fetched.foldl (stepMsg kws g u)
        (initSt ((m key).getD 0))).maxIdSeen) ((m key).getD 0))
      else m k := rfl

theorem runRest_delivered (kws : List String) (g : Bool) (env : SourceEnv)
    (u : Option String) (key : String) (m : String → Option Nat)
    (tr0 : List Ev) :
    (runRest kws g env u key m tr0).delivered =
      (env.fetched.foldl (stepMsg kws g u) (initSt ((m key).getD 0))).delivered := rfl

theorem runRest_sent (kws : List String) (g : Bool) (env : SourceEnv)
    (u : Option String) (key : String) (m : String → Option Nat)
    (tr0 : List Ev) :
    (runRest kws g env u key m tr0).sent =
      (env.fetched.foldl (stepMsg kws g u) (initSt ((m key).getD 0))).sent := rfl

theorem runRest_trace (kws : List String) (g : Bool) (env : SourceEnv)
    (u : Option String) (key : String) (m : String → Option Nat)
    (tr0 : List Ev) :
    (runRest kws g env u key m tr0).trace =
      tr0 ++ (env.fetched.foldl (stepMsg kws g u) (initSt ((m key).getD 0))).trace ++
        (if (env.fetched.foldl (stepMsg kws g u) (initSt ((m key).getD 0))).aborted
         then []
         else
           match env.fetchErr with
           | some (FetchErr.floodWait n) => [Ev.floodSignal n, Ev.sleep (n + 1)]
           | _ => []) := rfl

theorem runRest_newSeen (kws : List String) (g : Bool) (env : SourceEnv)
    (u : Option String) (key : String) (m : String → Option Nat)
    (tr0 : List Ev) :
    (runRest kws g env u key m tr0).newSeen =
      (env.fetched.foldl (stepMsg kws g u) (initSt ((m key).getD 0))).newSeen := rfl

theorem runRest_kwSubmitted (kws : List String) (g : Bool) (env : SourceEnv)
    (u : Option String) (key : String) (m : String → Option Nat)
    (tr0 : List Ev) :
    (runRest kws g env u key m tr0).kwSubmitted =
      (env.fetched.foldl (stepMsg kws g u) (initSt ((m key).getD 0))).kwSubmitted := rfl

theorem runRest_gptSubmitted (kws : List String) (g : Bool) (env : SourceEnv)
    (u : Option String) (key : String) (m : String → Option Nat)
    (tr0 : List Ev) :
    (runRest kws g env u key m tr0).gptSubmitted =
      (env.fetched.foldl (stepMsg kws g u) (initSt ((m key).getD 0))).gptSubmitted := rfl

/-- When the cursor key of a resolvable source is already present, the
warm-start block is skipped and the pass is exactly `runRest`. -/
theorem pass_key_present (warmStart : Bool) (kws : List String) (g : Bool)
    (env : SourceEnv) (raw : String) (last_ids : String → Option Nat)
    (e : Entity) (c : Nat)
    (hn : _normalize_tg_source raw ≠ "")
    (hr : env.resolved = Except.ok e)
    (hc : last_ids (entity_key e raw) = some c) :
    _parse_one_source warmStart kws g env raw last_ids =
      runRest kws g env e.username (entity_key e raw) last_ids [Ev.resolveCall] := by
  simp [_parse_one_source, hn, hr, hc]

theorem pass_nil_kws_delivered (warmStart : Bool) (g : Bool) (env : SourceEnv)
    (raw : String) (last_ids : String → Option Nat) :
    (_parse_one_source warmStart [] g env raw last_ids).delivered = [] ∧
      (_parse_one_source warmStart [] g env raw last_ids).sent = 0 := by
  by_cases hs : _normalize_tg_source raw = ""
  · simp [_parse_one_source, hs]
  · cases henv : env.resolved with
    | error rerr => cases rerr <;> simp [_parse_one_source, hs, henv]
    | ok e =>
      have main : ∀ (mm : String → Option Nat) (tr0 : List Ev),
          (runRest [] g env e.username (entity_key e raw) mm tr0).delivered = [] ∧
          (runRest [] g env e.username (entity_key e raw) mm tr0).sent = 0 := by
        intro mm tr0
        rw [runRest_delivered, runRest_sent]
        exact foldl_nil_kws_delivered g e.username env.fetched
          (initSt ((mm (entity_key e raw)).getD 0))
      by_cases hw : ((last_ids (entity_key e raw)).isNone && warmStart) = true
      · cases hp : env.warmProbe with
        | ok o =>
          cases o with
          | some lid => simp [_parse_one_source, hs, henv, hw, hp]
          | none =>
            simp only [_parse_one_source, hs, henv, hw, hp, if_true, if_false]
            exact main _ _
        | error uerr =>
          cases uerr <;>
            (simp only [_parse_one_source, hs, henv, hw, hp, if_true, if_false]
             exact main _ _)
      · simp only [_parse_one_source, hs, henv, hw, if_true, if_false]
        exact main _ _

theorem runSources_nil_kws_delivered (warmStart : Bool) (g : Bool)
    (se : String → SourceEnv) (sources : List String) (acc : AggSt)
    (h : acc.delivered = []) :
    (sources.foldl (stepSource warmStart [] g se) acc).delivered = [] := by
  induction sources generalizing acc with
  | nil => exact h
  | cons s ss ih =>
    apply ih
    show acc.delivered ++
      (_parse_one_source warmStart [] g (se s) s acc.cursors).delivered = []
    rw [h, (pass_nil_kws_delivered warmStart g (se s) s acc.cursors).1]
    rfl

theorem foldl_stepMsg_empty_texts (kws : List String) (g : Bool)
    (u : Option String) (l : List Msg) (st : LoopSt)
    (ha : st.aborted = false) (h : ∀ m ∈ l, pyStrip m.text = "") :
    (l.foldl (stepMsg kws g u) st).newSeen = st.newSeen + l.length ∧
    (l.foldl (stepMsg kws g u) st).delivered = st.delivered ∧
    (l.foldl (stepMsg kws g u) st).kwSubmitted = st.kwSubmitted ∧
    (l.foldl (stepMsg kws g u) st).gptSubmitted = st.gptSubmitted ∧
    (l.foldl (stepMsg kws g u) st).maxIdSeen =
      max st.maxIdSeen (observedMax l) := by
  induction l generalizing st with
  | nil => simp [observedMax]
  | cons m ms ih =>
    have hm : pyStrip m.text = "" := h m (List.mem_cons_self m ms)
    have hstep := stepMsg_empty_text kws g u st m ha hm
    have hms : ∀ m' ∈ ms, pyStrip m'.text = "" :=
      fun m' hm' => h m' (List.mem_cons.mpr (Or.inr hm'))
    obtain ⟨h1, h2, h3, h4, h5⟩ := ih
      { st with newSeen := st.newSeen + 1,
                maxIdSeen := max st.maxIdSeen m.id,
                trace := st.trace ++ [Ev.fetchYield m.id] } ha hms
    simp only [List.foldl_cons, hstep]
    refine ⟨?_, h2, h3, h4, ?_⟩
    · rw [h1]; simp [List.length_cons]; omega
    · rw [h5, observedMax_cons, Nat.max_assoc]

/-! ### Flood-wait compliance of the event traces -/

theorem compliantFrom_zero (l : List Ev) : compliantFrom 0 l := by
  induction l with
  | nil => trivial
  | cons e rest ih => cases e <;> simp [compliantFrom, ih]

theorem afterSignalOk_compliant (n : Nat) (l : List Ev)
    (h : afterSignalOk n l = true) : compliantFrom n l := by
  induction l generalizing n with
  | nil => simp [afterSignalOk] at h
  | cons e rest ih =>
    cases e with
    | sleep s =>
      have hns : n ≤ s := by simpa [afterSignalOk] using h
      have h0 : n - s = 0 := Nat.sub_eq_zero_of_le hns
      simp only [compliantFrom, h0]
      exact compliantFrom_zero rest
    | resolveCall => simp [afterSignalOk, isProviderCall] at h
    | probeCall => simp [afterSignalOk, isProviderCall] at h
    | fetchYield i => simp [afterSignalOk, isProviderCall] at h
    | getSenderCall => simp [afterSignalOk, isProviderCall] at h
    | authCall => simp [afterSignalOk, isProviderCall] at h
    | sinkPost s =>
      refine ⟨fun hp => by simp [isProviderCall] at hp, ih n ?_⟩
      simpa [afterSignalOk, isProviderCall] using h
    | alertPost =>
      refine ⟨fun hp => by simp [isProviderCall] at hp, ih n ?_⟩
      simpa [afterSignalOk, isProviderCall] using h
    | statusPost s =>
      refine ⟨fun hp => by simp [isProviderCall] at hp, ih n ?_⟩
      simpa [afterSignalOk, isProviderCall] using h
    | floodSignal k =>
      refine ⟨fun hp => by simp [isProviderCall] at hp, ih n ?_⟩
      simpa [afterSignalOk, isProviderCall] using h

theorem afterSignalOk_append (n : Nat) (a b : List Ev)
    (h : afterSignalOk n a = true) : afterSignalOk n (a ++ b) = true := by
  induction a with
  | nil => simp [afterSignalOk] at h
  | cons e rest ih =>
    cases e <;>
      simp only [List.cons_append, afterSignalOk, isProviderCall,
        Bool.and_eq_true, Bool.not_true, Bool.not_false, Bool.false_and,
        Bool.true_and] at h ⊢ <;>
      first
        | exact h
        | exact ih h

theorem floodOk_append (a b : List Ev) (ha : floodOk a = true)
    (hb : floodOk b = true) : floodOk (a ++ b) = true := by
  induction a with
  | nil => simpa using hb
  | cons e rest ih =>
    cases e <;>
      simp only [List.cons_append, floodOk, Bool.and_eq_true] at ha ⊢ <;>
      first
        | exact ih ha
        | exact ⟨afterSignalOk_append _ _ _ ha.1, ih ha.2⟩

theorem signalFree_floodOk (l : List Ev) (h : signalFree l = true) :
    floodOk l = true := by
  induction l with
  | nil => rfl
  | cons e rest ih =>
    simp only [signalFree, List.all_cons, Bool.and_eq_true] at h
    have hr : floodOk rest = true := ih h.2
    cases e <;> simp only [floodOk] <;>
      first
        | exact hr
        | (exfalso; simp [isFloodSignal] at h)

theorem floodOk_compliant (xs : List Ev) :
    ∀ (tr : List Ev) (n : Nat) (ys : List Ev), floodOk tr = true →
      tr = xs ++ Ev.floodSignal n :: ys → compliantFrom n ys := by
  induction xs with
  | nil =>
    intro tr n ys h htr
    subst htr
    simp only [List.nil_append, floodOk, Bool.and_eq_true] at h
    exact afterSignalOk_compliant n ys h.1
  | cons x xs' ih =>
    intro tr n ys h htr
    subst htr
    have h' : floodOk (xs' ++ Ev.floodSignal n :: ys) = true := by
      cases x <;> simp only [List.cons_append, floodOk, Bool.and_eq_true] at h <;>
        first
          | exact h
          | exact h.2
    exact ih _ n ys h' rfl

theorem stepMsg_trace_signalFree (kws : List String) (g : Bool)
    (u : Option String) (st : LoopSt) (m : Msg)
    (hm : noSenderFlood m = true) (h : signalFree st.trace = true) :
    signalFree (stepMsg kws g u st m).trace = true := by
  unfold stepMsg
  by_cases ha : st.aborted = true
  · simpa [ha] using h
  · simp only [Bool.not_eq_true] at ha
    simp only [ha, Bool.false_eq_true, if_false]
    rcases hse : m.senderErr with _ | serr
    · repeat' split
      all_goals
        simpa [hse, senderEvs, signalFree, isFloodSignal, List.all_append] using h
    · cases serr with
      | floodWait k => simp [noSenderFlood, hse] at hm
      | other =>
        repeat' split
        all_goals
          simpa [hse, senderEvs, signalFree, isFloodSignal, List.all_append] using h

theorem foldl_stepMsg_trace_signalFree (kws : List String) (g : Bool)
    (u : Option String) :
    ∀ (l : List Msg) (st : LoopSt), l.all noSenderFlood = true →
      signalFree st.trace = true →
      signalFree ((l.foldl (stepMsg kws g u) st).trace) = true
  | [], _, _, h => h
  | m :: ms, st, hl, h => by
    simp only [List.all_cons, Bool.and_eq_true] at hl
    exact foldl_stepMsg_trace_signalFree kws g u ms _ hl.2
      (stepMsg_trace_signalFree kws g u st m hl.1 h)

theorem floodOk_floodTail (b : Bool) (fe : Option FetchErr) :
    floodOk (if b then ([] : List Ev)
      else
        match fe with
        | some (FetchErr.floodWait n) => [Ev.floodSignal n, Ev.sleep (n + 1)]
        | _ => []) = true := by
  split
  · rfl
  · match fe with
    | none => rfl
    | some FetchErr.other => rfl
    | some (FetchErr.floodWait n) =>
      simp [floodOk, afterSignalOk, Nat.le_succ]

theorem runRest_trace_floodOk (kws : List String) (g : Bool) (env : SourceEnv)
    (u : Option String) (key : String) (m : String → Option Nat)
    (tr0 : List Ev) (h0 : signalFree tr0 = true)
    (hf : env.fetched.all noSenderFlood = true) :
    floodOk (runRest kws g env u key m tr0).trace = true := by
  rw [runRest_trace]
  refine floodOk_append _ _ (floodOk_append _ _ (signalFree_floodOk _ h0)
    (signalFree_floodOk _ (foldl_stepMsg_trace_signalFree kws g u env.fetched
      (initSt ((m key).getD 0)) hf rfl))) (floodOk_floodTail _ _)

theorem passTrace_floodOk (warmStart : Bool) (kws : List String) (g : Bool)
    (env : SourceEnv) (raw : String) (m : String → Option Nat)
    (hflood : noSwallowedFlood env = true) :
    floodOk (_parse_one_source warmStart kws g env raw m).trace = true := by
  simp only [noSwallowedFlood, Bool.and_eq_true] at hflood
  obtain ⟨⟨hres, hprobe⟩, hsend⟩ := hflood
  by_cases hs : _normalize_tg_source raw = ""
  · simp [_parse_one_source, hs, floodOk]
  · cases henv : env.resolved with
    | error rerr =>
      cases rerr with
      | floodWait k => rw [henv] at hres; simp at hres
      | other => simp [_parse_one_source, hs, henv, floodOk]
    | ok e =>
      by_cases hw : ((m (entity_key e raw)).isNone && warmStart) = true
      · cases hp : env.warmProbe with
        | ok o =>
          cases o with
          | some lid => simp [_parse_one_source, hs, henv, hw, hp, floodOk]
          | none =>
            simp only [_parse_one_source, hs, henv, hw, hp, if_false, if_true]
            exact runRest_trace_floodOk _ _ _ _ _ _ _ rfl hsend
        | error uerr =>
          cases uerr with
          | floodWait k => rw [hp] at hprobe; simp at hprobe
          | other =>
            simp only [_parse_one_source, hs, henv, hw, hp, if_false, if_true]
            exact runRest_trace_floodOk _ _ _ _ _ _ _ rfl hsend
      · simp only [_parse_one_source, hs, henv, hw, if_false, if_true]
        exact runRest_trace_floodOk _ _ _ _ _ _ _ rfl hsend

theorem runSources_trace_floodOk (warmStart : Bool) (kws : List String)
    (g : Bool) (se : String → SourceEnv) (sources : List String) (acc : AggSt)
    (hflood : ∀ s, noSwallowedFlood (se s) = true)
    (h : floodOk acc.trace = true) :
    floodOk ((sources.foldl (stepSource warmStart kws g se) acc).trace) = true := by
  induction sources generalizing acc with
  | nil => exact h
  | cons s ss ih =>
    exact ih _ (floodOk_append _ _ h
      (passTrace_floodOk warmStart kws g (se s) s acc.cursors (hflood s)))

theorem runSources_floodOk (warmStart : Bool) (kws : List String) (g : Bool)
    (se : String → SourceEnv) (cursors0 : String → Option Nat)
    (sources : List String) (hflood : ∀ s, noSwallowedFlood (se s) = true) :
    floodOk (runSources warmStart kws g se cursors0 sources).trace = true :=
  runSources_trace_floodOk warmStart kws g se sources ⟨cursors0, 0, 0, 0, [], []⟩
    hflood rfl

theorem floodOk_cycleBody (tr : List Ev) (s : String) (p : Nat)
    (h : floodOk tr = true) :
    floodOk (Ev.authCall :: (tr ++ [Ev.statusPost s, Ev.sleep p])) = true := by
  have h2 : floodOk (tr ++ [Ev.statusPost s, Ev.sleep p]) = true :=
    floodOk_append _ _ h rfl
  simpa [floodOk] using h2

theorem cycleTrace_floodOk (warmStart : Bool) (kws : List String) (g : Bool)
    (cursors0 : String → Option Nat) (env : CycleEnv)
    (hflood : ∀ s, noSwallowedFlood (env.srcEnv s) = true) :
    floodOk (runCycle warmStart kws g cursors0 env).trace = true := by
  by_cases hss : pyStrip env.session = ""
  · simp [runCycle, hss, floodOk]
  · cases ha : env.auth with
    | error o =>
      cases o with
      | some n =>
        simp [runCycle, hss, ha, floodOk, afterSignalOk, isProviderCall, Nat.le_succ]
      | none => simp [runCycle, hss, ha, floodOk]
    | ok b =>
      cases b with
      | false => simp [runCycle, hss, ha, floodOk]
      | true =>
        by_cases he : (fetch_telegram_sources env.registry).isEmpty = true
        · simp [runCycle, hss, ha, he, floodOk]
        · by_cases hk : kws.isEmpty = true
          · simp only [runCycle, hss, ha, he, hk, if_false, if_true]
            simp only [List.singleton_append]
            exact floodOk_cycleBody _ _ _ (runSources_floodOk _ _ _ _ _ _ hflood)
          · simp only [runCycle, hss, ha, he, hk, if_false, if_true]
            simp only [List.singleton_append]
            exact floodOk_cycleBody _ _ _ (runSources_floodOk _ _ _ _ _ _ hflood)

/-! ### The claims -/

/-- C1: Cursor monotonicity: for every source key, the value stored in
`last_ids` for that key after a `_parse_one_source` pass is at least the
value stored before the pass (an absent entry counting as smaller than any
stored value); no execution path decreases a cursor. -/
theorem c1_cursor_monotonic (warmStart : Bool) (kws : List String)
    (gptEnabled : Bool) (env : SourceEnv) (raw : String)
    (last_ids : String → Option Nat) (k : String) (v : Nat)
    (h : last_ids k = some v) :
    ∃ w, (_parse_one_source warmStart kws gptEnabled env raw last_ids).cursors k
      = some w ∧ v ≤ w := by
  by_cases hs : _normalize_tg_source raw = ""
  · exact ⟨v, by simp [_parse_one_source, hs, h], le_refl v⟩
  · cases henv : env.resolved with
    | error rerr =>
      refine ⟨v, ?_, le_refl v⟩
      cases rerr <;> simp [_parse_one_source, hs, henv, h]
    | ok e =>
      by_cases hk : k = entity_key e raw
      · subst hk
        refine ⟨max ((env.fetched.foldl (stepMsg kws gptEnabled e.username)
          (initSt v)).maxIdSeen) v, ?_, ?_⟩
        · rw [pass_key_present warmStart kws gptEnabled env raw last_ids e v hs henv h,
            runRest_cursors]
          simp [h]
        · calc v = (initSt v).maxIdSeen := rfl
            _ ≤ (env.fetched.foldl (stepMsg kws gptEnabled e.username)
                  (initSt v)).maxIdSeen :=
              foldl_stepMsg_maxIdSeen_le kws gptEnabled e.username env.fetched (initSt v)
            _ ≤ _ := Nat.le_max_left _ _
      · refine ⟨v, ?_, le_refl v⟩
        by_cases hw : ((last_ids (entity_key e raw)).isNone && warmStart) = true
        · cases hp : env.warmProbe with
          | ok o =>
            cases o with
            | some lid => simp [_parse_one_source, hs, henv, hw, hp, setCursor, hk, h]
            | none =>
              simp [_parse_one_source, hs, henv, hw, hp, runRest_cursors, hk, h]
          | error uerr =>
            cases uerr <;>
              simp [_parse_one_source, hs, henv, hw, hp, runRest_cursors, setCursor, hk, h]
        · simp [_parse_one_source, hs, henv, hw, runRest_cursors, hk, h]

/-- Witness for C1: a map holding 5 at key "A" still holds at least 5 there
after a pass. -/
theorem c1_cursor_monotonic_witness :
    ∃ w, (_parse_one_source true ["hiring"] false
      ⟨Except.error FetchErr.other, Except.ok none, [], none⟩ "alpha"
      (fun s => if s = "A" then some 5 else none)).cursors "A" = some w ∧ 5 ≤ w :=
  c1_cursor_monotonic true ["hiring"] false
    ⟨Except.error FetchErr.other, Except.ok none, [], none⟩
    "alpha" (fun s => if s = "A" then some 5 else none) "A" 5 (by decide)

/-- Environment for the C2 counterexample: first-ever sight of the source
and warm start enabled, but the warm-start probe (`get_messages(limit=1)`)
raises; the code then seeds the cursor to 0 and proceeds to scan from id 0. -/
def c2CexEnv : SourceEnv :=
  ⟨Except.ok ⟨none, some "Chan", none⟩, Except.error FetchErr.other,
   [⟨103, "hiring dev", none, none, none, some 999, GptHttp.exn, 200⟩], none⟩

/-- C2 counterexample: the cursor key is absent at the start of the pass and
warm start is enabled, yet the pass delivers the source's historical message
(sent = 1), refuting "that pass delivers no item to the sink, regardless of
the source's message history". -/
theorem c2_warm_start_cex :
    ((fun _ => (none : Option Nat))
        (entity_key ⟨none, some "Chan", none⟩ "alpha") = none)
  ∧ (_parse_one_source true ["hiring"] false c2CexEnv "alpha"
      (fun _ => none)).sent = 1
  ∧ (_parse_one_source true ["hiring"] false c2CexEnv "alpha"
      (fun _ => none)).delivered.map Payload.external_id = ["999:103"] :=
  ⟨rfl, by decide, by decide⟩

/-- C2 (amended): warm-start safety holds provided the warm-start probe
succeeds and returns the source's latest message: the pass then returns all
zero counters, delivers nothing, seeds the cursor to that latest id, and
does nothing else. -/
theorem c2_warm_start_amended (kws : List String) (gptEnabled : Bool)
    (env : SourceEnv) (raw : String) (last_ids : String → Option Nat)
    (e : Entity) (lid : Nat)
    (hn : _normalize_tg_source raw ≠ "")
    (hr : env.resolved = Except.ok e)
    (hc : last_ids (entity_key e raw) = none)
    (hp : env.warmProbe = Except.ok (some lid)) :
    _parse_one_source true kws gptEnabled env raw last_ids =
      ⟨0, 0, 0, setCursor last_ids (entity_key e raw) lid, [], [], [],
       [Ev.resolveCall, Ev.probeCall]⟩ := by
  simp [_parse_one_source, hn, hr, hc, hp]

/-- Environment for the C2 witness: warm-start probe returns latest id 42. -/
def c2WEnv : SourceEnv :=
  ⟨Except.ok ⟨none, some "Chan", none⟩, Except.ok (some 42), [], none⟩

/-- Witness for C2 (amended) at a concrete first-sight environment. -/
theorem c2_warm_start_amended_witness :
    _parse_one_source true ["hiring"] false c2WEnv "alpha" (fun _ => none) =
      ⟨0, 0, 0,
       setCursor (fun _ => none) (entity_key ⟨none, some "Chan", none⟩ "alpha") 42,
       [], [], [], [Ev.resolveCall, Ev.probeCall]⟩ :=
  c2_warm_start_amended ["hiring"] false c2WEnv "alpha" (fun _ => none)
    ⟨none, some "Chan", none⟩ 42 (by decide) rfl rfl rfl

/-- C3: Fail-closed on empty keywords: with an empty `JOB_KEYWORDS`,
`_keyword_match` rejects every text, no cycle delivers any item whatever the
inputs, and a cycle that reaches source processing posts the distinct
`no_keywords` status. -/
theorem c3_fail_closed_empty_keywords :
    (∀ t, _keyword_match [] t = false)
  ∧ (∀ (warmStart gptEnabled : Bool) (cursors0 : String → Option Nat)
       (env : CycleEnv), (runCycle warmStart [] gptEnabled cursors0 env).delivered = [])
  ∧ (∀ (warmStart gptEnabled : Bool) (cursors0 : String → Option Nat)
       (env : CycleEnv), pyStrip env.session ≠ "" → env.auth = Except.ok true →
       fetch_telegram_sources env.registry ≠ [] →
       (runCycle warmStart [] gptEnabled cursors0 env).status =
         "no_keywords sources=" ++ toString (fetch_telegram_sources env.registry).length) := by
  refine ⟨fun t => rfl, ?_, ?_⟩
  · intro ws g c0 env
    by_cases hss : pyStrip env.session = ""
    · simp [runCycle, hss]
    · cases ha : env.auth with
      | error o => cases o <;> simp [runCycle, hss, ha]
      | ok b =>
        cases b with
        | false => simp [runCycle, hss, ha]
        | true =>
          by_cases he : (fetch_telegram_sources env.registry).isEmpty = true
          · simp [runCycle, hss, ha, he]
          · simp only [runCycle, hss, ha, he, if_true, if_false, List.isEmpty_nil]
            exact runSources_nil_kws_delivered ws g env.srcEnv _ _ rfl
  · intro ws g c0 env hss ha he
    have he' : (fetch_telegram_sources env.registry).isEmpty = false := by
      simpa [List.isEmpty_iff] using he
    simp [runCycle, hss, ha, he']

/-- Cycle environment for the C3 witness. -/
def c3WEnv : CycleEnv :=
  ⟨"sess", Except.ok true, some [⟨true, "telegram", "chan1"⟩],
   fun _ => ⟨Except.error FetchErr.other, Except.ok none, [], none⟩, 60⟩

/-- Witness for C3 at a concrete authorized cycle with one source. -/
theorem c3_fail_closed_empty_keywords_witness :
    _keyword_match [] "we are hiring" = false
  ∧ (runCycle true [] false (fun _ => none) c3WEnv).delivered = []
  ∧ (runCycle true [] false (fun _ => none) c3WEnv).status =
      "no_keywords sources=" ++ toString (fetch_telegram_sources c3WEnv.registry).length :=
  ⟨c3_fail_closed_empty_keywords.1 "we are hiring",
   c3_fail_closed_empty_keywords.2.1 true false (fun _ => none) c3WEnv,
   c3_fail_closed_empty_keywords.2.2 true false (fun _ => none) c3WEnv
     (by decide) rfl (by decide)⟩

/-- C4 counterexample: a 301 response is not 2xx, yet its parseable body
verdict `relevant = false` is honoured, so `gpt_is_relevant` returns false —
refuting "any non-2xx HTTP status yields relevant = true" (the code only
fails open for status >= 400). -/
theorem c4_fail_open_cex :
    (gpt_is_relevant true "hiring a dev"
      (GptHttp.resp 301 (some (false, "chatter")))).1 = false := by decide

/-- C4 (amended): fail-open on classifier failure with "non-2xx" corrected
to "status >= 400": a transport error, an HTTP status >= 400, an unparsable
body, or a disabled classifier all yield `relevant = true`. -/
theorem c4_fail_open_amended :
    (∀ t, (gpt_is_relevant true t GptHttp.exn).1 = true)
  ∧ (∀ t s p, 400 ≤ s → (gpt_is_relevant true t (GptHttp.resp s p)).1 = true)
  ∧ (∀ t s, (gpt_is_relevant true t (GptHttp.resp s none)).1 = true)
  ∧ (∀ t h, (gpt_is_relevant false t h).1 = true) := by
  refine ⟨fun t => rfl, fun t s p h => ?_, fun t s => ?_, fun t h => rfl⟩
  · simp [gpt_is_relevant, h]
  · by_cases h4 : 400 ≤ s <;> simp [gpt_is_relevant, h4]

/-- Witness for C4 (amended) at HTTP 500 with a parseable negative body. -/
theorem c4_fail_open_amended_witness :
    (gpt_is_relevant true "x" (GptHttp.resp 500 (some (false, "no")))).1 = true :=
  c4_fail_open_amended.2.1 "x" 500 (some (false, "no")) (by decide)

/-- C5: Cursor advance after every pass: for a resolvable source with an
existing cursor `c`, the pass sets the cursor to the maximum of `c` and the
largest message id among the messages actually processed during the fetch —
also when nothing passed filtering or a delivery aborted the loop. -/
theorem c5_cursor_advance (warmStart : Bool) (kws : List String)
    (gptEnabled : Bool) (env : SourceEnv) (raw : String)
    (last_ids : String → Option Nat) (e : Entity) (c : Nat)
    (hn : _normalize_tg_source raw ≠ "")
    (hr : env.resolved = Except.ok e)
    (hc : last_ids (entity_key e raw) = some c) :
    (_parse_one_source warmStart kws gptEnabled env raw last_ids).cursors
        (entity_key e raw)
      = some (max c (observedMax (processedMsgs kws gptEnabled env.fetched))) := by
  rw [pass_key_present warmStart kws gptEnabled env raw last_ids e c hn hr hc,
    runRest_cursors, if_pos rfl, hc]
  simp only [Option.getD_some]
  rw [foldl_stepMsg_maxIdSeen kws gptEnabled e.username env.fetched (initSt c) rfl]
  have hi : (initSt c).maxIdSeen = c := rfl
  rw [hi, max_eq_left (Nat.le_max_left c _)]

/-- Environment and cursor map for the C5 witness. -/
def c5WEnv : SourceEnv :=
  ⟨Except.ok ⟨none, some "Chan", none⟩, Except.ok none,
   [⟨9, "untracked offer", none, none, none, some 999, GptHttp.exn, 200⟩], none⟩

/-- Cursor map for the C5 witness. -/
def c5WMap : String → Option Nat :=
  fun s => if s = "Chan|@alpha" then some 5 else none

/-- Witness for C5: cursor 5, one non-matching message with id 9. -/
theorem c5_cursor_advance_witness :
    (_parse_one_source true [] false c5WEnv "alpha" c5WMap).cursors
        (entity_key ⟨none, some "Chan", none⟩ "alpha")
      = some (max 5 (observedMax (processedMsgs [] false c5WEnv.fetched))) :=
  c5_cursor_advance true [] false c5WEnv "alpha" c5WMap
    ⟨none, some "Chan", none⟩ 5 (by decide) rfl (by decide)

/-- Per-source environment for the C6 counterexample: same entity, same
message, reachable under two different raw registry identifiers. -/
def c6SrcEnv : SourceEnv :=
  ⟨Except.ok ⟨none, some "Chan", none⟩, Except.ok none,
   [⟨7, "hiring dev", none, none, none, some 999, GptHttp.exn, 200⟩], none⟩

/-- Cycle environment for the C6 counterexample: the registry lists the same
channel once as a numeric id and once as a bare word; the entity has no
username, so the two cursor keys differ and both passes deliver. -/
def c6CycleEnv : CycleEnv :=
  ⟨"sess", Except.ok true,
   some [⟨true, "telegram", "-1001"⟩, ⟨true, "telegram", "chan1"⟩],
   fun _ => c6SrcEnv, 60⟩

/-- C6 counterexample: the program has no dedup window; one cycle of one
process lifetime delivers the same fingerprint "999:7" twice. -/
theorem c6_dedup_window_cex :
    (runCycle false ["hiring"] false (fun _ => none) c6CycleEnv).delivered.map
        Payload.external_id = ["999:7", "999:7"]
  ∧ ¬ ((runCycle false ["hiring"] false (fun _ => none) c6CycleEnv).delivered.map
        Payload.external_id).Nodup :=
  ⟨by decide, by decide⟩

/-- C6 (amended): no fingerprint set is maintained; the only per-pass
duplicate protection is structural: each fetched message is delivered at
most once, so the delivered fingerprints of one pass form a subsequence of
the fetched messages' fingerprints.  Across passes the same fingerprint can
be delivered again. -/
theorem c6_no_dedup_window_amended (warmStart : Bool) (kws : List String)
    (gptEnabled : Bool) (env : SourceEnv) (raw : String)
    (last_ids : String → Option Nat) :
    ((_parse_one_source warmStart kws gptEnabled env raw last_ids).delivered.map
        Payload.external_id).Sublist
      (env.fetched.map (fun m => _external_id_from_message m.peerId m.id)) := by
  by_cases hs : _normalize_tg_source raw = ""
  · simp [_parse_one_source, hs]
  · cases henv : env.resolved with
    | error rerr => cases rerr <;> simp [_parse_one_source, hs, henv]
    | ok e =>
      have main : ∀ (mm : String → Option Nat) (tr0 : List Ev),
          ((runRest kws gptEnabled env e.username (entity_key e raw) mm
            tr0).delivered.map Payload.external_id).Sublist
            (env.fetched.map (fun m => _external_id_from_message m.peerId m.id)) := by
        intro mm tr0
        rw [runRest_delivered]
        obtain ⟨d, hd, hsub⟩ := foldl_stepMsg_delivered_sublist kws gptEnabled
          e.username env.fetched (initSt ((mm (entity_key e raw)).getD 0))
        rw [hd]
        simpa using hsub
      by_cases hw : ((last_ids (entity_key e raw)).isNone && warmStart) = true
      · cases hp : env.warmProbe with
        | ok o =>
          cases o with
          | some lid => simp [_parse_one_source, hs, henv, hw, hp]
          | none =>
            simp only [_parse_one_source, hs, henv, hw, hp, if_true, if_false]
            exact main _ _
        | error uerr =>
          cases uerr <;>
            (simp only [_parse_one_source, hs, henv, hw, hp, if_true, if_false]
             exact main _ _)
      · simp only [_parse_one_source, hs, henv, hw, if_true, if_false]
        exact main _ _

/-- Sink responses for the C7 counterexample: attempt 0 would fail with 500,
attempt 1 would succeed with 200. -/
def c7Responses : Nat → Nat := fun i => if i = 0 then 500 else 200

/-- C7 counterexample: the first POST fails transiently and a retry would
have succeeded, yet `send_job_to_miniapp` makes exactly one attempt (never
two) and surfaces the error immediately. -/
theorem c7_retry_once_cex :
    (send_job_to_miniapp c7Responses).attempts = 1
  ∧ (send_job_to_miniapp c7Responses).raised = true
  ∧ ¬ (send_job_to_miniapp c7Responses).attempts = 2 :=
  ⟨by decide, by decide, by decide⟩

/-- C7 (amended): the delivery client performs no retry: every call makes
exactly one POST.  A 200 response succeeds silently; any other status sends
an alert; the error is raised to the caller (`raise_for_status`) exactly
when the status is `>= 400`, while statuses 201-399 return normally and the
caller counts the item sent. -/
theorem c7_no_retry_amended (responses : Nat → Nat) :
    (send_job_to_miniapp responses).attempts = 1
  ∧ ((send_job_to_miniapp responses).delivered = true ↔ responses 0 < 400)
  ∧ ((send_job_to_miniapp responses).alerted = true ↔ responses 0 ≠ 200)
  ∧ ((send_job_to_miniapp responses).raised = true ↔ 400 ≤ responses 0) := by
  refine ⟨?_, ?_, ?_, ?_⟩ <;>
    by_cases h2 : responses 0 = 200 <;>
    by_cases h4 : responses 0 < 400 <;>
    simp [send_job_to_miniapp, h2, h4] <;>
    omega

/-- Registry for the C8 counterexample: two enabled telegram entries whose
raw identifiers differ but normalize to the same identity. -/
def c8Registry : List RegistryEntry :=
  [⟨true, "telegram", "chan1"⟩, ⟨true, "telegram", "@chan1"⟩]

/-- C8 counterexample: deduplication happens on the raw strings before
normalization, so "chan1" and "@chan1" — the same normalized identity
"@chan1" — are both kept and processed twice in one cycle. -/
theorem c8_normalized_dedup_cex :
    fetch_telegram_sources (some c8Registry) = ["chan1", "@chan1"]
  ∧ (fetch_telegram_sources (some c8Registry)).map _normalize_tg_source
      = ["@chan1", "@chan1"]
  ∧ ¬ ((fetch_telegram_sources (some c8Registry)).map _normalize_tg_source).Nodup :=
  ⟨by decide, by decide, by decide⟩

/-- C8 (amended): the source list of a cycle is deduplicated by the raw
(trimmed) identifier string, not by normalized identity: the processed
sequence contains no duplicate raw identifiers and preserves the original
discovery order (it is a sublist of the filtered registry response). -/
theorem c8_raw_dedup_amended (fetch : Option (List RegistryEntry)) :
    (fetch_telegram_sources fetch).Nodup ∧
      (fetch_telegram_sources fetch).Sublist (filteredRaws fetch) :=
  ⟨(dedupAux_nodup (filteredRaws fetch) []).1,
   dedupAux_sublist (filteredRaws fetch) []⟩

/-- Environment for the C9 counterexample: first sight of a source with warm
start enabled, and the warm-start probe raises `FloodWaitError(30)`; the
generic handler at lines 392-393 swallows it without sleeping, seeds the
cursor to 0, and the pass immediately continues with provider calls
(`iter_messages`). -/
def c9CexEnv : SourceEnv :=
  ⟨Except.ok ⟨none, some "Chan", none⟩, Except.error (FetchErr.floodWait 30),
   [⟨103, "", none, none, none, some 999, GptHttp.exn, 200⟩], none⟩

/-- C9 counterexample: the provider signals a 30-second flood wait at the
warm-start probe, yet the very next event of the pass is a provider call
(`fetchYield`) with no intervening sleep — the program does not suspend
provider calls for the signalled duration. -/
theorem c9_flood_wait_cex :
    (_parse_one_source true ["hiring"] false c9CexEnv "alpha" (fun _ => none)).trace
      = [Ev.resolveCall, Ev.probeCall] ++ Ev.floodSignal 30 :: [Ev.fetchYield 103]
  ∧ ¬ compliantFrom 30 [Ev.fetchYield 103] := by
  constructor
  · decide
  · intro h
    simp [compliantFrom, isProviderCall] at h

/-- C9 (amended): flood-wait compliance holds for the two handlers that
actually sleep — the per-source fetch-loop handler (lines 457-460) and the
cycle-level handler (lines 550-554): provided no flood wait arises at the
three swallowed sites (`get_entity`, the warm-start probe, `get_sender`),
every flood signal in the trace of a pass or of a whole cycle is followed by
sleeps totalling at least the signalled duration before any further
provider call. -/
theorem c9_flood_wait_amended :
    (∀ (warmStart : Bool) (kws : List String) (gptEnabled : Bool)
        (env : SourceEnv) (raw : String) (last_ids : String → Option Nat)
        (xs : List Ev) (n : Nat) (ys : List Ev),
        noSwallowedFlood env = true →
        (_parse_one_source warmStart kws gptEnabled env raw last_ids).trace
          = xs ++ Ev.floodSignal n :: ys → compliantFrom n ys)
  ∧ (∀ (warmStart : Bool) (kws : List String) (gptEnabled : Bool)
        (cursors0 : String → Option Nat) (env : CycleEnv)
        (xs : List Ev) (n : Nat) (ys : List Ev),
        (∀ s, noSwallowedFlood (env.srcEnv s) = true) →
        (runCycle warmStart kws gptEnabled cursors0 env).trace
          = xs ++ Ev.floodSignal n :: ys → compliantFrom n ys) := by
  constructor
  · intro ws kws g env raw m xs n ys hfl htr
    exact floodOk_compliant xs _ n ys (passTrace_floodOk ws kws g env raw m hfl) htr
  · intro ws kws g c0 env xs n ys hfl htr
    exact floodOk_compliant xs _ n ys (cycleTrace_floodOk ws kws g c0 env hfl) htr

/-- Cycle environment for the C9 witness: the authorization check raises a
flood wait of 5 seconds; no swallowed-site flood anywhere. -/
def c9WEnv : CycleEnv :=
  ⟨"sess", Except.error (some 5), none,
   fun _ => ⟨Except.error FetchErr.other, Except.ok none, [], none⟩, 60⟩

/-- Witness for C9 (amended): after the 5-second flood signal of the
concrete cycle, the remaining events (status post, then the 6-second and
60-second sleeps) are compliant. -/
theorem c9_flood_wait_amended_witness :
    compliantFrom 5 [Ev.statusPost "flood_wait 5s", Ev.sleep 6, Ev.sleep 60] :=
  c9_flood_wait_amended.2 true [] false (fun _ => none) c9WEnv
    [Ev.authCall] 5 [Ev.statusPost "flood_wait 5s", Ev.sleep 6, Ev.sleep 60]
    (fun _ => rfl) (by decide)

/-- C10: Empty-body messages are silently consumed: a message whose body
strips to the empty string is never submitted to the keyword or GPT filter
and never delivered, yet it increments the new-messages-seen counter and its
id still counts toward the cursor written at the end of the pass. -/
theorem c10_empty_text_consumed :
    (∀ (kws : List String) (gptEnabled : Bool) (u : Option String)
        (st : LoopSt) (m : Msg), st.aborted = false → pyStrip m.text = "" →
        stepMsg kws gptEnabled u st m =
          { st with newSeen := st.newSeen + 1,
                    maxIdSeen := max st.maxIdSeen m.id,
                    trace := st.trace ++ [Ev.fetchYield m.id] })
  ∧ (∀ (warmStart : Bool) (kws : List String) (gptEnabled : Bool)
        (env : SourceEnv) (raw : String) (last_ids : String → Option Nat)
        (e : Entity) (c : Nat),
        _normalize_tg_source raw ≠ "" → env.resolved = Except.ok e →
        last_ids (entity_key e raw) = some c →
        (∀ m ∈ env.fetched, pyStrip m.text = "") →
        (_parse_one_source warmStart kws gptEnabled env raw last_ids).newSeen
            = env.fetched.length ∧
        (_parse_one_source warmStart kws gptEnabled env raw last_ids).delivered = [] ∧
        (_parse_one_source warmStart kws gptEnabled env raw last_ids).kwSubmitted = [] ∧
        (_parse_one_source warmStart kws gptEnabled env raw last_ids).gptSubmitted = [] ∧
        (_parse_one_source warmStart kws gptEnabled env raw last_ids).cursors
            (entity_key e raw) = some (max c (observedMax env.fetched))) := by
  refine ⟨stepMsg_empty_text, ?_⟩
  intro ws kws g env raw last_ids e c hn hr hc hall
  have hpass := pass_key_present ws kws g env raw last_ids e c hn hr hc
  have hgd : (last_ids (entity_key e raw)).getD 0 = c := by rw [hc]; rfl
  obtain ⟨h1, h2, h3, h4, h5⟩ := foldl_stepMsg_empty_texts kws g e.username
    env.fetched (initSt c) rfl hall
  refine ⟨?_, ?_, ?_, ?_, ?_⟩
  · rw [hpass, runRest_newSeen, hgd, h1]; simp [initSt]
  · rw [hpass, runRest_delivered, hgd, h2]; rfl
  · rw [hpass, runRest_kwSubmitted, hgd, h3]; rfl
  · rw [hpass, runRest_gptSubmitted, hgd, h4]; rfl
  · rw [hpass, runRest_cursors, if_pos rfl, hgd, h5]
    have hi : (initSt c).maxIdSeen = c := rfl
    rw [hi, max_eq_left (Nat.le_max_left c _)]

/-- Environment for the C10 witness: one whitespace-only message with id 9. -/
def c10WEnv : SourceEnv :=
  ⟨Except.ok ⟨none, some "Chan", none⟩, Except.ok none,
   [⟨9, "   ", none, none, none, some 999, GptHttp.exn, 200⟩], none⟩

/-- Cursor map for the C10 witness. -/
def c10WMap : String → Option Nat :=
  fun s => if s = "Chan|@alpha" then some 5 else none

/-- Witness for C10: the whitespace-only message is counted and advances the
cursor but reaches no filter and no delivery. -/
theorem c10_empty_text_consumed_witness :
    (_parse_one_source true ["hiring"] false c10WEnv "alpha" c10WMap).newSeen
        = c10WEnv.fetched.length
  ∧ (_parse_one_source true ["hiring"] false c10WEnv "alpha" c10WMap).delivered = []
  ∧ (_parse_one_source true ["hiring"] false c10WEnv "alpha" c10WMap).kwSubmitted = []
  ∧ (_parse_one_source true ["hiring"] false c10WEnv "alpha" c10WMap).cursors
      (entity_key ⟨none, some "Chan", none⟩ "alpha")
      = some (max 5 (observedMax c10WEnv.fetched)) := by
  obtain ⟨h1, h2, h3, _h4, h5⟩ := c10_empty_text_consumed.2 true ["hiring"] false
    c10WEnv "alpha" c10WMap ⟨none, some "Chan", none⟩ 5
    (by decide) rfl (by decide) (by decide)
  exact ⟨h1, h2, h3, h5⟩

end TgParser
